import Mathlib

/-!
Verification of the tracing shim in `tracing.go` (package `hckit`).

The Go file wires an HTTP server and client to an external tracing
backend.  We shallowly embed the four exported operations:

* `InitGlobalTracer`  (tracing.go lines 21-54)
* `TracingMiddleware` (tracing.go lines 57-98)
* `InjectHeaders`     (tracing.go lines 102-116)
* `TracingRoundTripper.RoundTrip` (tracing.go lines 125-129)

The external tracing client is modelled by explicit parameters: the
tracer is a record of an extract function, an inject function and the
context handed to a freshly started root span; `config.FromEnv` and
`cfg.InitGlobalTracer` are inputs to the embedded initializer.  Side
effects (log lines, span lifecycle, tag writes, header injection) are
recorded as an explicit event list.  A Go `defer`/panic pair is embedded
by branching on whether the wrapped handler panicked: deferred calls run
on both branches, statements after the call run only on the normal one.
-/

namespace Hckit

/-- A trace context: the identifier set carried across processes
(trace ID, span ID, sampling flag). -/
structure SpanCtx where
  traceID : Nat
  spanID : Nat
  sampled : Bool
deriving DecidableEq, Repr

/-- The slice of an `http.Request` the Go code reads and writes:
`r.URL.Path`, `r.Method` and `r.Header`.  Headers are an association
list of name/value pairs. -/
structure Request where
  path : String
  method : String
  headers : List (String × String)
deriving DecidableEq, Repr

/-- Observable side effects emitted by the instrumentation code:
process log lines, span lifecycle events, span field logs, span tags
and header injection. -/
inductive Ev where
  | log (msg : String)
  | spanStart (name : String) (parent : Option SpanCtx)
  | spanFinish (name : String)
  | spanLogField (event : String) (value : String)
  | setTag (key : String) (value : String)
  | inject (ctx : SpanCtx)
deriving DecidableEq, Repr

/-- What the wrapped `http.Handler` does when invoked: the bytes it
writes to the response writer, and whether it panics. -/
structure HandlerResult where
  writes : List String
  panicked : Bool
deriving DecidableEq, Repr

/-- Result of running the middleware-wrapped handler on one request:
the response bytes, whether a panic propagated out, and the
instrumentation events emitted by the middleware. -/
structure MwResult where
  writes : List String
  panicked : Bool
  events : List Ev
deriving DecidableEq, Repr

/-- The tracer collaborator as the Go code uses it:
`Extract` over a header carrier (returning a possibly-nil context and a
possibly-nil error, as the Go pair does), `Inject` of a context into a
header carrier, and the context given to a newly started root span. -/
structure Tracer where
  extract : List (String × String) → Option SpanCtx × Option String
  inject : SpanCtx → List (String × String) → List (String × String)
  fresh : SpanCtx

/-- `startsWithChars pat l` is true when `pat` is an initial segment of
`l`; helper for the substring test. -/
def startsWithChars : List Char → List Char → Bool
  | [], _ => true
  | _ :: _, [] => false
  | p :: ps, c :: cs => p == c && startsWithChars ps cs

/-- `hasSubChars pat l`: does `pat` occur contiguously inside `l`?
This is the semantics of Go `strings.Contains` on the rune lists. -/
def hasSubChars (pat : List Char) : List Char → Bool
  | [] => startsWithChars pat []
  | c :: cs => startsWithChars pat (c :: cs) || hasSubChars pat cs

/-- `strings.Contains(path, "health")` from tracing.go line 61. -/
def pathHasHealth (path : String) : Bool :=
  hasSubChars "health".data path.data

/-- Embedding of `TracingMiddleware` (tracing.go lines 57-98) applied
to one request.  `next` is the wrapped handler.  The `if hr.panicked`
split embeds `defer span.Finish()`: the deferred finish runs on the
panic path as well, while the post-call field log and completion log
run only on normal return. -/
def tracingMiddleware (tracer : Tracer) (next : Request → HandlerResult)
    (r : Request) : MwResult :=
  if pathHasHealth r.path then
    let hr := next r
    { writes := hr.writes, panicked := hr.panicked, events := [] }
  else
    let ext := tracer.extract r.headers
    let wireContext := ext.1
    let extractErr := ext.2
    let preEvents : List Ev :=
      [Ev.log ("INFO: TracingMiddleware beginning for " ++ r.path)]
        ++ (match extractErr with
            | some e => [Ev.log ("WARN: Extract failed, error recieved. " ++ e)]
            | none => [])
        ++ (match wireContext with
            | some _ => [Ev.log "INFO: WireContext is present"]
            | none => [])
        ++ [Ev.spanStart r.path wireContext,
            Ev.setTag "span.kind" "server",
            Ev.spanLogField r.path "start"]
    let hr := next r
    if hr.panicked then
      { writes := hr.writes, panicked := true,
        events := preEvents ++ [Ev.spanFinish r.path] }
    else
      { writes := hr.writes, panicked := false,
        events := preEvents
          ++ [Ev.spanLogField r.path "finish",
              Ev.log "INFO: TracingMiddleware complete",
              Ev.spanFinish r.path] }

/-- Is this event a span start? -/
def Ev.isSpanStart : Ev → Bool
  | Ev.spanStart _ _ => true
  | _ => false

/-- Is this event a span finish? -/
def Ev.isSpanFinish : Ev → Bool
  | Ev.spanFinish _ => true
  | _ => false

/-- Number of spans started in an event list. -/
def countSpanStarts (evs : List Ev) : Nat :=
  (evs.filter Ev.isSpanStart).length

/-- Number of spans finished in an event list. -/
def countSpanFinishes (evs : List Ev) : Nat :=
  (evs.filter Ev.isSpanFinish).length

/-- A response from an outbound call, as the round tripper sees it:
an `(*http.Response, error)` pair is `Option HTTPResponse × Option
String` in the model. -/
structure HTTPResponse where
  status : Nat
  body : String
deriving DecidableEq, Repr

/-- Embedding of `InjectHeaders` (tracing.go lines 102-116).  It
returns the mutated request together with the emitted events.
`StartSpan(r.URL.Path)` is called with no option, so the new span is a
root span with the tracer-supplied fresh context; the three tag writes
follow, then `Inject` of the span context into the header carrier, and
last the deferred `span.Finish()`. -/
def injectHeaders (tracer : Tracer) (r : Request) : Request × List Ev :=
  let ctx := tracer.fresh
  let newHeaders := tracer.inject ctx r.headers
  ({ r with headers := newHeaders },
   [Ev.spanStart r.path none,
    Ev.log "INFO: span.Context is present",
    Ev.setTag "span.kind" "client",
    Ev.setTag "http.url" r.path,
    Ev.setTag "http.method" r.method,
    Ev.inject ctx,
    Ev.spanFinish r.path])

/-- Embedding of `TracingRoundTripper.RoundTrip` (tracing.go lines
125-129).  `proxied` is the wrapped transport; it receives the request
after header injection and its own emitted events come after all
injection events. -/
def tracingRoundTrip (tracer : Tracer)
    (proxied : Request → (Option HTTPResponse × Option String) × List Ev)
    (req : Request) : (Option HTTPResponse × Option String) × List Ev :=
  let inj := injectHeaders tracer req
  let out := proxied inj.1
  (out.1,
   Ev.log "INFO: TracingRoundTripper.RountTrip injecting headers"
     :: inj.2 ++ out.2)

/-- Written from the spec wording for the transport wrapper: delegate
the header-injected request to the underlying transport and return its
(response, error) result unchanged — to be compared with
`tracingRoundTrip`. -/
def specPassThroughRoundTrip (tracer : Tracer)
    (proxied : Request → (Option HTTPResponse × Option String) × List Ev)
    (req : Request) : Option HTTPResponse × Option String :=
  (proxied (injectHeaders tracer req).1).1

/-! ### The Zipkin B3 HTTP header propagator

`zipkin.NewZipkinB3HTTPHeaderPropagator()` comes from the external
jaeger client, not from this repository. -/

/-- Hex digit character for a value below 16 (lower case, as the B3
headers use). -/
def hexDigitChar (d : Nat) : Char :=
  if d < 10 then Char.ofNat (48 + d) else Char.ofNat (87 + d)

/-- Inverse of `hexDigitChar`: value of one hex character, `none` on a
non-hex character. -/
def hexDigitVal (c : Char) : Option Nat :=
  if 48 ≤ c.toNat && c.toNat ≤ 57 then some (c.toNat - 48)
  else if 97 ≤ c.toNat && c.toNat ≤ 102 then some (c.toNat - 87)
  else none

/-- Fuelled form of the base-16 digit decomposition; with fuel at
least the number itself it computes all digits.  The fuel keeps the
recursion structural, so the function evaluates inside the kernel. -/
def toHexAux : Nat → Nat → List Nat
  | _, 0 => []
  | 0, _ + 1 => []
  | f + 1, n + 1 => (n + 1) % 16 :: toHexAux f ((n + 1) / 16)

/-- Little-endian base-16 digit list of a natural number; empty for 0. -/
def toHexDigitsRev (n : Nat) : List Nat :=
  toHexAux n n

/-- Value of a little-endian base-16 digit list. -/
def ofHexDigitsRev : List Nat → Nat
  | [] => 0
  | d :: ds => d + 16 * ofHexDigitsRev ds

/-- Hex rendering of a natural number, `"0"` for 0. -/
def natToHex (n : Nat) : String :=
  match toHexDigitsRev n with
  | [] => "0"
  | ds => String.mk ((ds.map hexDigitChar).reverse)

/-- Values of a list of hex characters, `none` if any is not hex. -/
def hexVals : List Char → Option (List Nat)
  | [] => some []
  | c :: cs =>
    match hexDigitVal c, hexVals cs with
    | some d, some ds => some (d :: ds)
    | _, _ => none

/-- Parse a hex string; `none` on the empty string or a non-hex
character. -/
def hexToNat (s : String) : Option Nat :=
  match s.data with
  | [] => none
  | cs =>
    match hexVals cs with
    | some ds => some (ofHexDigitsRev ds.reverse)
    | none => none

/-- `http.Header.Set` semantics on the association-list model: drop
any previous value for the name, add the new one in front. -/
def setHeader (k v : String) (h : List (String × String)) :
    List (String × String) :=
  (k, v) :: h.filter (fun p => p.1 != k)

/-- First value for a header name, if present. -/
def getHeader (k : String) (h : List (String × String)) : Option String :=
  (h.find? (fun p => p.1 == k)).map (fun p => p.2)

/-- Modelled from the spec: the inject half of the external
`zipkin.NewZipkinB3HTTPHeaderPropagator()` (src has only its call
site).  Per the spec, trace context (trace ID, span ID, sampling
decision) is carried in B3-style multi-headers. -/
def injectB3 (ctx : SpanCtx) (h : List (String × String)) :
    List (String × String) :=
  setHeader "x-b3-sampled" (if ctx.sampled then "1" else "0")
    (setHeader "x-b3-spanid" (natToHex ctx.spanID)
      (setHeader "x-b3-traceid" (natToHex ctx.traceID) h))

/-- Modelled from the spec: the extract half of the external B3
propagator.  With no trace context in the headers it returns a nil
context and an error value, as the opentracing `Extract` contract
does; with unparsable identifiers likewise. -/
def extractB3 (h : List (String × String)) :
    Option SpanCtx × Option String :=
  match getHeader "x-b3-traceid" h, getHeader "x-b3-spanid" h with
  | some t, some s =>
    match hexToNat t, hexToNat s with
    | some tid, some sid =>
      (some { traceID := tid, spanID := sid,
              sampled := getHeader "x-b3-sampled" h == some "1" }, none)
    | _, _ => (none, some "opentracing: SpanContext not found in Extract carrier")
  | _, _ => (none, some "opentracing: SpanContext not found in Extract carrier")

/-- A propagator as registered with the tracer configuration: an
inject half and an extract half. -/
structure Propagator where
  injectFn : SpanCtx → List (String × String) → List (String × String)
  extractFn : List (String × String) → Option SpanCtx × Option String

/-- The propagator value built at tracing.go line 36 and registered
for both directions. -/
def zipkinB3Propagator : Propagator :=
  { injectFn := injectB3, extractFn := extractB3 }

/-- A tracer whose extract/inject halves are the B3 propagator, with a
given fresh root context; used to instantiate the abstract tracer on
concrete runs. -/
def b3Tracer (fresh : SpanCtx) : Tracer :=
  { extract := extractB3, inject := injectB3, fresh := fresh }

/-! ### InitGlobalTracer -/

/-- `config.SamplerConfig`: the two fields the Go code writes.  The
Go `Param` is a float64 set to the constant 1; it is modelled as a
natural number. -/
structure SamplerConfig where
  type : String
  param : Nat
deriving DecidableEq, Repr

/-- `config.ReporterConfig`: the field the Go code writes plus an
abstract remainder loaded from the environment. -/
structure ReporterConfig where
  logSpans : Bool
  agentAddr : String
deriving DecidableEq, Repr

/-- `config.Configuration`: the fields the Go code touches plus
representative environment-loaded ones it leaves alone. -/
structure Config where
  serviceName : String
  disabled : Bool
  sampler : Option SamplerConfig
  reporter : ReporterConfig
deriving DecidableEq, Repr

/-- `jaeger.SamplerTypeConst`. -/
def samplerTypeConst : String := "const"

/-- The carrier formats of the opentracing package; the Go code only
uses `opentracing.HTTPHeaders`. -/
inductive BuiltinFormat where
  | httpHeaders
  | textMap
  | binary
deriving DecidableEq, Repr

/-- The options the Go code passes to `cfg.InitGlobalTracer`
(tracing.go lines 41-45). -/
inductive TracerOption where
  | logger
  | metrics
  | injector (format : BuiltinFormat) (prop : Propagator)
  | extractor (format : BuiltinFormat) (prop : Propagator)
  | zipkinSharedRPCSpan (enabled : Bool)

/-- The `io.Closer` handle returned by tracer construction; opaque to
this code, modelled by a token. -/
structure Closer where
  token : Nat
deriving DecidableEq, Repr

/-- The Go pair returned by `config.FromEnv()`: a configuration and a
possibly-nil error. -/
structure EnvLoad where
  cfg : Config
  err : Option String

/-- Lines 26-30 of tracing.go: the overrides applied to the
environment-loaded configuration before the tracer is built. -/
def overriddenConfig (cfg : Config) : Config :=
  { cfg with
      sampler := some { type := samplerTypeConst, param := 1 },
      reporter := { cfg.reporter with logSpans := true } }

/-- Lines 41-45 of tracing.go: the option list handed to
`cfg.InitGlobalTracer`, with one shared Zipkin B3 propagator
registered as both injector and extractor. -/
def tracerOptions : List TracerOption :=
  [TracerOption.logger,
   TracerOption.metrics,
   TracerOption.injector BuiltinFormat.httpHeaders zipkinB3Propagator,
   TracerOption.extractor BuiltinFormat.httpHeaders zipkinB3Propagator,
   TracerOption.zipkinSharedRPCSpan true]

/-- Result of the embedded `InitGlobalTracer`: the returned
`(io.Closer, error)` pair plus the log lines the function printed. -/
structure InitResult where
  closer : Option Closer
  err : Option String
  logs : List String

/-- Embedding of `InitGlobalTracer` (tracing.go lines 21-54).
`fromEnv` is the result of `config.FromEnv()`; `installGlobal` is the
external `cfg.InitGlobalTracer` call, receiving the overridden
configuration and the option list and returning a `(closer, error)`
pair.  As in the source, the `err` of `fromEnv` is overwritten by the
second call without being inspected. -/
def initGlobalTracer (fromEnv : EnvLoad)
    (installGlobal : Config → List TracerOption → Option Closer × Option String) :
    InitResult :=
  let cfg := fromEnv.cfg
  let cfg2 := overriddenConfig cfg
  let out := installGlobal cfg2 tracerOptions
  match out.2 with
  | some e =>
    { closer := out.1, err := some e,
      logs := ["Could not initialize jaeger tracer: " ++ e] }
  | none => { closer := out.1, err := none, logs := [] }

/-! ### Helper lemmas: hex round trip and header lookup -/

theorem hexDigitVal_hexDigitChar : ∀ d < 16, hexDigitVal (hexDigitChar d) = some d := by
  decide

theorem toHexAux_lt : ∀ f n, ∀ d ∈ toHexAux f n, d < 16 := by
  intro f
  induction f with
  | zero =>
    intro n d hd
    cases n with
    | zero => simp [toHexAux] at hd
    | succ m => simp [toHexAux] at hd
  | succ f ih =>
    intro n d hd
    cases n with
    | zero => simp [toHexAux] at hd
    | succ m =>
      simp only [toHexAux, List.mem_cons] at hd
      rcases hd with h | h
      · subst h
        exact Nat.mod_lt _ (by decide)
      · exact ih _ d h

theorem ofHexDigitsRev_toHexAux : ∀ f n, n ≤ f → ofHexDigitsRev (toHexAux f n) = n := by
  intro f
  induction f with
  | zero =>
    intro n hn
    have h0 : n = 0 := Nat.le_zero.mp hn
    subst h0
    rfl
  | succ f ih =>
    intro n hn
    cases n with
    | zero => rfl
    | succ m =>
      have hdiv : (m + 1) / 16 ≤ f := by
        have h1 : (m + 1) / 16 < m + 1 := Nat.div_lt_self (Nat.succ_pos m) (by decide)
        omega
      simp only [toHexAux, ofHexDigitsRev]
      rw [ih _ hdiv]
      exact Nat.mod_add_div (m + 1) 16

theorem hexVals_map_hexDigitChar :
    ∀ ds : List Nat, (∀ d ∈ ds, d < 16) →
      hexVals (ds.map hexDigitChar) = some ds := by
  intro ds
  induction ds with
  | nil => intro _; rfl
  | cons d ds ih =>
    intro hlt
    have hd : hexDigitVal (hexDigitChar d) = some d :=
      hexDigitVal_hexDigitChar d (hlt d (List.mem_cons_self d ds))
    have hds : hexVals (ds.map hexDigitChar) = some ds :=
      ih (fun x hx => hlt x (List.mem_cons_of_mem d hx))
    simp [hexVals, hd, hds]

theorem hexToNat_natToHex (n : Nat) : hexToNat (natToHex n) = some n := by
  cases n with
  | zero => decide
  | succ m =>
    have hne : toHexDigitsRev (m + 1) =
        (m + 1) % 16 :: toHexAux m ((m + 1) / 16) := rfl
    set ds := toHexDigitsRev (m + 1) with hds
    have hlt : ∀ d ∈ ds, d < 16 := toHexAux_lt _ _
    have hval : ofHexDigitsRev ds = m + 1 :=
      ofHexDigitsRev_toHexAux (m + 1) (m + 1) (Nat.le_refl _)
    have hcons : ds = (m + 1) % 16 :: toHexAux m ((m + 1) / 16) := hne
    have hnatToHex : natToHex (m + 1) =
        String.mk ((ds.map hexDigitChar).reverse) := by
      rw [natToHex, ← hds, hcons]
    have hdata : (String.mk ((ds.map hexDigitChar).reverse)).data =
        ds.reverse.map hexDigitChar := by
      simp [List.map_reverse]
    have hrevne : ds.reverse.map hexDigitChar ≠ [] := by
      rw [hcons]
      simp
    have hvals : hexVals (ds.reverse.map hexDigitChar) = some ds.reverse :=
      hexVals_map_hexDigitChar ds.reverse
        (fun d hd => hlt d (List.mem_reverse.mp hd))
    rw [hnatToHex, hexToNat, hdata]
    cases hcase : ds.reverse.map hexDigitChar with
    | nil => exact absurd hcase hrevne
    | cons c cs =>
      show (match hexVals (c :: cs) with
            | some ds => some (ofHexDigitsRev ds.reverse)
            | none => none) = some (m + 1)
      rw [← hcase, hvals]
      simp [List.reverse_reverse, hval]

theorem find?_filter_of_imp {α : Type} (pred q : α → Bool)
    (himp : ∀ x, pred x = true → q x = true) :
    ∀ l : List α, List.find? pred (l.filter q) = List.find? pred l := by
  intro l
  induction l with
  | nil => rfl
  | cons a l ih =>
    by_cases hq : q a = true
    · by_cases hp : pred a = true
      · simp [List.filter, hq, List.find?, hp]
      · simp only [List.filter, hq]
        simp only [List.find?, hp]
        simpa [Bool.not_eq_true] using ih
    · have hp : pred a = false := by
        cases hpa : pred a with
        | false => rfl
        | true => exact absurd (himp a hpa) hq
      simp only [List.filter, Bool.not_eq_true] at hq ⊢
      rw [hq]
      simp only [List.find?, hp]
      exact ih

theorem getHeader_setHeader_same (k v : String) (h : List (String × String)) :
    getHeader k (setHeader k v h) = some v := by
  simp [getHeader, setHeader, List.find?]

theorem getHeader_setHeader_ne (k kother v : String) (h : List (String × String))
    (hne : kother ≠ k) :
    getHeader k (setHeader kother v h) = getHeader k h := by
  have hbeq : (kother == k) = false := by
    simp [hne]
  simp only [getHeader, setHeader, List.find?, hbeq]
  rw [find?_filter_of_imp]
  intro x hx
  have hxk : x.1 = k := by
    simpa using hx
  simp [hxk, Ne.symm hne]

theorem getHeader_injectB3_traceid (ctx : SpanCtx) (h : List (String × String)) :
    getHeader "x-b3-traceid" (injectB3 ctx h) = some (natToHex ctx.traceID) := by
  unfold injectB3
  rw [getHeader_setHeader_ne _ _ _ _ (by decide),
      getHeader_setHeader_ne _ _ _ _ (by decide),
      getHeader_setHeader_same]

theorem getHeader_injectB3_spanid (ctx : SpanCtx) (h : List (String × String)) :
    getHeader "x-b3-spanid" (injectB3 ctx h) = some (natToHex ctx.spanID) := by
  unfold injectB3
  rw [getHeader_setHeader_ne _ _ _ _ (by decide),
      getHeader_setHeader_same]

theorem getHeader_injectB3_sampled (ctx : SpanCtx) (h : List (String × String)) :
    getHeader "x-b3-sampled" (injectB3 ctx h) =
      some (if ctx.sampled then "1" else "0") := by
  unfold injectB3
  rw [getHeader_setHeader_same]

/-! ### Claim theorems -/

/-- C8: for every trace context, injecting it into the request headers
via the installed header-carrier format (the Zipkin B3 propagator
registered as both injector and extractor) and then extracting from
those same headers via the same format yields the same trace identity,
with no extraction error. -/
theorem zipkinB3_extract_inject_roundtrip (ctx : SpanCtx)
    (h : List (String × String)) :
    zipkinB3Propagator.extractFn (zipkinB3Propagator.injectFn ctx h) =
      (some ctx, none) := by
  obtain ⟨tid, sid, smp⟩ := ctx
  show extractB3 (injectB3 ⟨tid, sid, smp⟩ h) = (some ⟨tid, sid, smp⟩, none)
  have h1 := getHeader_injectB3_traceid ⟨tid, sid, smp⟩ h
  have h2 := getHeader_injectB3_spanid ⟨tid, sid, smp⟩ h
  have h3 := getHeader_injectB3_sampled ⟨tid, sid, smp⟩ h
  unfold extractB3
  rw [h1, h2]
  simp only [hexToNat_natToHex]
  rw [h3]
  cases smp <;> simp

/-- C7: `InitGlobalTracer` always overrides the environment-loaded
configuration to a constant always-sample sampler with span logging
enabled, registers one shared Zipkin B3 propagator as both the
HTTP-header injector and extractor together with the shared-RPC-span
option, and hands exactly this configuration and option list to the
global tracer installation call. -/
theorem initGlobalTracer_overrides (fe : EnvLoad)
    (installGlobal : Config → List TracerOption → Option Closer × Option String) :
    (overriddenConfig fe.cfg).sampler =
        some { type := samplerTypeConst, param := 1 }
    ∧ (overriddenConfig fe.cfg).reporter.logSpans = true
    ∧ TracerOption.injector BuiltinFormat.httpHeaders zipkinB3Propagator
        ∈ tracerOptions
    ∧ TracerOption.extractor BuiltinFormat.httpHeaders zipkinB3Propagator
        ∈ tracerOptions
    ∧ TracerOption.zipkinSharedRPCSpan true ∈ tracerOptions
    ∧ (initGlobalTracer fe installGlobal).closer =
        (installGlobal (overriddenConfig fe.cfg) tracerOptions).1
    ∧ (initGlobalTracer fe installGlobal).err =
        (installGlobal (overriddenConfig fe.cfg) tracerOptions).2 := by
  refine ⟨rfl, rfl, ?_, ?_, ?_, ?_, ?_⟩
  · simp [tracerOptions]
  · simp [tracerOptions]
  · simp [tracerOptions]
  · unfold initGlobalTracer
    cases hout : (installGlobal (overriddenConfig fe.cfg) tracerOptions).2 <;>
      simp [hout]
  · unfold initGlobalTracer
    cases hout : (installGlobal (overriddenConfig fe.cfg) tracerOptions).2 <;>
      simp [hout]

/-- A concrete environment-loaded configuration used to exhibit the
lost `config.FromEnv` error. -/
def envConfigSample : Config :=
  { serviceName := "demo", disabled := false, sampler := none,
    reporter := { logSpans := false, agentAddr := "localhost:6831" } }

/-- C3 is false of the code: when `config.FromEnv` fails, its error is
overwritten by the result of the later `cfg.InitGlobalTracer` call
without being inspected.  Here `FromEnv` fails with an error while
tracer installation succeeds, and the function returns a nil error and
logs nothing: the load error is neither logged nor returned. -/
theorem initGlobalTracer_discards_env_error :
    initGlobalTracer
        { cfg := envConfigSample, err := some "env parse failure" }
        (fun _ _ => (some { token := 0 }, none)) =
      { closer := some { token := 0 }, err := none, logs := [] } := rfl

/-- C1: for a request whose URL path contains `"health"`, the
middleware invokes the wrapped handler directly, emits no event at all
(in particular creates no span), and its output is identical to that
of the unwrapped handler. -/
theorem tracingMiddleware_health_bypass (tracer : Tracer)
    (next : Request → HandlerResult) (r : Request)
    (hh : pathHasHealth r.path = true) :
    tracingMiddleware tracer next r =
      { writes := (next r).writes, panicked := (next r).panicked,
        events := [] } := by
  simp [tracingMiddleware, hh]

/-- C1 witness: a concrete health-path request is bypassed with the
unwrapped handler output and no events. -/
theorem tracingMiddleware_health_bypass_witness :
    pathHasHealth "/health/live" = true
    ∧ tracingMiddleware (b3Tracer ⟨1, 2, true⟩)
        (fun _ => { writes := ["ok"], panicked := false })
        { path := "/health/live", method := "GET", headers := [] } =
      { writes := ["ok"], panicked := false, events := [] } :=
  ⟨by decide,
   tracingMiddleware_health_bypass (b3Tracer ⟨1, 2, true⟩)
     (fun _ => { writes := ["ok"], panicked := false })
     { path := "/health/live", method := "GET", headers := [] }
     (by decide)⟩

/-- C2: for a request whose URL path does not contain `"health"`, the
middleware starts exactly one span and finishes exactly one span,
whether the wrapped handler returns normally or panics (the response
it writes, 2xx or not, is part of `next r` and does not matter). -/
theorem tracingMiddleware_span_once (tracer : Tracer)
    (next : Request → HandlerResult) (r : Request)
    (hh : pathHasHealth r.path = false) :
    countSpanStarts (tracingMiddleware tracer next r).events = 1
    ∧ countSpanFinishes (tracingMiddleware tracer next r).events = 1 := by
  rcases hex : tracer.extract r.headers with ⟨wc, er⟩
  cases wc <;> cases er <;> cases hp : (next r).panicked <;>
    simp [tracingMiddleware, hh, hex, hp, countSpanStarts,
      countSpanFinishes, Ev.isSpanStart, Ev.isSpanFinish]

/-- C2 witness: on a concrete non-health request whose handler
panics, exactly one span is started and exactly one finished. -/
theorem tracingMiddleware_span_once_witness :
    pathHasHealth "/orders/42" = false
    ∧ (countSpanStarts (tracingMiddleware (b3Tracer ⟨1, 2, true⟩)
          (fun _ => { writes := [], panicked := true })
          { path := "/orders/42", method := "GET", headers := [] }).events = 1
       ∧ countSpanFinishes (tracingMiddleware (b3Tracer ⟨1, 2, true⟩)
          (fun _ => { writes := [], panicked := true })
          { path := "/orders/42", method := "GET", headers := [] }).events = 1) :=
  ⟨by decide,
   tracingMiddleware_span_once (b3Tracer ⟨1, 2, true⟩)
     (fun _ => { writes := [], panicked := true })
     { path := "/orders/42", method := "GET", headers := [] }
     (by decide)⟩

/-- C4: for a non-health request on which trace-context extraction
fails (nil context plus an error, as the opentracing `Extract`
contract returns), the middleware logs the failure, starts a root span
(no parent context), still invokes the wrapped handler, and introduces
no failure of its own: output and panic status are exactly those
of the handler. -/
theorem tracingMiddleware_extract_failure (tracer : Tracer)
    (next : Request → HandlerResult) (r : Request) (e : String)
    (hh : pathHasHealth r.path = false)
    (hex : tracer.extract r.headers = (none, some e)) :
    Ev.log ("WARN: Extract failed, error recieved. " ++ e)
        ∈ (tracingMiddleware tracer next r).events
    ∧ Ev.spanStart r.path none ∈ (tracingMiddleware tracer next r).events
    ∧ (tracingMiddleware tracer next r).writes = (next r).writes
    ∧ (tracingMiddleware tracer next r).panicked = (next r).panicked := by
  cases hp : (next r).panicked <;>
    simp [tracingMiddleware, hh, hex, hp]

/-- C4 witness: a concrete request with no trace headers makes the B3
extraction fail; the middleware logs it, starts a root span and passes
the handler output through. -/
theorem tracingMiddleware_extract_failure_witness :
    pathHasHealth "/orders/42" = false
    ∧ (b3Tracer ⟨1, 2, true⟩).extract ([] : List (String × String)) =
        (none, some "opentracing: SpanContext not found in Extract carrier")
    ∧ (Ev.log ("WARN: Extract failed, error recieved. "
          ++ "opentracing: SpanContext not found in Extract carrier")
        ∈ (tracingMiddleware (b3Tracer ⟨1, 2, true⟩)
            (fun _ => { writes := ["resp"], panicked := false })
            { path := "/orders/42", method := "GET", headers := [] }).events
       ∧ Ev.spanStart "/orders/42" none
          ∈ (tracingMiddleware (b3Tracer ⟨1, 2, true⟩)
              (fun _ => { writes := ["resp"], panicked := false })
              { path := "/orders/42", method := "GET", headers := [] }).events
       ∧ (tracingMiddleware (b3Tracer ⟨1, 2, true⟩)
            (fun _ => { writes := ["resp"], panicked := false })
            { path := "/orders/42", method := "GET", headers := [] }).writes =
          ["resp"]
       ∧ (tracingMiddleware (b3Tracer ⟨1, 2, true⟩)
            (fun _ => { writes := ["resp"], panicked := false })
            { path := "/orders/42", method := "GET", headers := [] }).panicked =
          false) :=
  ⟨by decide, by decide,
   tracingMiddleware_extract_failure (b3Tracer ⟨1, 2, true⟩)
     (fun _ => { writes := ["resp"], panicked := false })
     { path := "/orders/42", method := "GET", headers := [] }
     "opentracing: SpanContext not found in Extract carrier"
     (by decide) (by decide)⟩

/-- C9: for a non-health request the middleware invokes the wrapped
handler on the original request and returns exactly the output
the handler itself produces as and panic status; everything it adds is the event list (span
creation and emitted trace data). -/
theorem tracingMiddleware_frame (tracer : Tracer)
    (next : Request → HandlerResult) (r : Request)
    (hh : pathHasHealth r.path = false) :
    (tracingMiddleware tracer next r).writes = (next r).writes
    ∧ (tracingMiddleware tracer next r).panicked = (next r).panicked := by
  rcases hex : tracer.extract r.headers with ⟨wc, er⟩
  cases wc <;> cases er <;> cases hp : (next r).panicked <;>
    simp [tracingMiddleware, hh, hex, hp]

/-- C9 witness: on a concrete non-health request, the middleware
output equals the unwrapped handler output. -/
theorem tracingMiddleware_frame_witness :
    pathHasHealth "/orders/7" = false
    ∧ ((tracingMiddleware (b3Tracer ⟨3, 4, false⟩)
          (fun _ => { writes := ["a", "b"], panicked := false })
          { path := "/orders/7", method := "POST", headers := [] }).writes =
        ["a", "b"]
       ∧ (tracingMiddleware (b3Tracer ⟨3, 4, false⟩)
            (fun _ => { writes := ["a", "b"], panicked := false })
            { path := "/orders/7", method := "POST", headers := [] }).panicked =
          false) :=
  ⟨by decide,
   tracingMiddleware_frame (b3Tracer ⟨3, 4, false⟩)
     (fun _ => { writes := ["a", "b"], panicked := false })
     { path := "/orders/7", method := "POST", headers := [] }
     (by decide)⟩

/-- C5: `TracingRoundTripper.RoundTrip` first performs the
`InjectHeaders` behaviour on the request and then delegates once to
the wrapped transport, returning its response/error pair unchanged
(this is the spec-side pass-through composition), with the transport
events strictly after the injection events and no other call made. -/
theorem tracingRoundTrip_passthrough (tracer : Tracer)
    (proxied : Request → (Option HTTPResponse × Option String) × List Ev)
    (req : Request) :
    (tracingRoundTrip tracer proxied req).1 =
        specPassThroughRoundTrip tracer proxied req
    ∧ (tracingRoundTrip tracer proxied req).2 =
        Ev.log "INFO: TracingRoundTripper.RountTrip injecting headers"
          :: (injectHeaders tracer req).2
          ++ (proxied (injectHeaders tracer req).1).2 :=
  ⟨rfl, rfl⟩

/-- C6: `InjectHeaders` starts exactly one span, named after the
URL path of the request; tags it as a client-kind span with the target URL
and HTTP method; rewrites the request headers in place to the
tracer-injected headers of the context of that span, leaving path and
method untouched; and its last two events are the injection followed
immediately by the span finish, so the span is finished before any
network call proceeds. -/
theorem injectHeaders_behavior (tracer : Tracer) (r : Request) :
    countSpanStarts (injectHeaders tracer r).2 = 1
    ∧ Ev.spanStart r.path none ∈ (injectHeaders tracer r).2
    ∧ Ev.setTag "span.kind" "client" ∈ (injectHeaders tracer r).2
    ∧ Ev.setTag "http.url" r.path ∈ (injectHeaders tracer r).2
    ∧ Ev.setTag "http.method" r.method ∈ (injectHeaders tracer r).2
    ∧ (injectHeaders tracer r).1.headers =
        tracer.inject tracer.fresh r.headers
    ∧ (injectHeaders tracer r).1.path = r.path
    ∧ (injectHeaders tracer r).1.method = r.method
    ∧ (∃ pre, (injectHeaders tracer r).2 =
        pre ++ [Ev.inject tracer.fresh, Ev.spanFinish r.path])
    ∧ countSpanFinishes (injectHeaders tracer r).2 = 1 := by
  refine ⟨?_, ?_, ?_, ?_, ?_, rfl, rfl, rfl, ?_, ?_⟩
  · simp [injectHeaders, countSpanStarts, Ev.isSpanStart]
  · simp [injectHeaders]
  · simp [injectHeaders]
  · simp [injectHeaders]
  · simp [injectHeaders]
  · exact ⟨[Ev.spanStart r.path none,
      Ev.log "INFO: span.Context is present",
      Ev.setTag "span.kind" "client",
      Ev.setTag "http.url" r.path,
      Ev.setTag "http.method" r.method], rfl⟩
  · simp [injectHeaders, countSpanFinishes, Ev.isSpanFinish]

/-- C10: every span `InjectHeaders` starts is started with no parent
option: whatever trace context the request headers already carry and
whatever inbound span may be active, the one span started is a root
span. -/
theorem injectHeaders_root_span (tracer : Tracer) (r : Request) :
    ((injectHeaders tracer r).2).filter Ev.isSpanStart =
      [Ev.spanStart r.path none] := by
  simp [injectHeaders, Ev.isSpanStart, List.filter]

end Hckit
